import Mathlib

/-!
Shallow embedding of the credential lifecycle and request-dispatch layer of
the zoho-projects-mcp server (src/index.ts), together with theorems settling
the claims about it.

Modelling conventions:
- Machine time (Date.now, milliseconds) is an Int supplied by the World; a
  single logical dispatch is treated as instantaneous, so every Date.now()
  read during one dispatch returns World.now.
- The two remote endpoints (the OAuth token endpoint and the resource API)
  are oracles: the World holds the list of outcomes the endpoints will
  produce, consumed in call order.  A fetch that rejects at the network
  level is a netErr outcome; an HTTP response is a FetchResponse.
- The endpoint path, HTTP verb and optional JSON body of makeRequest only
  determine the URL and the options object handed to fetch; they are
  threaded through the recursion unchanged and never branch the control
  flow, so they are abstracted away by the oracle (which answers by call
  order).  The Authorization header token of every resource fetch is
  recorded as an event, since the claims inspect it.
- Thrown JS exceptions become an Except error channel.  The distinct throw
  sites of the source map to distinct ThrownError constructors carrying the
  same data (status codes, body text) the source interpolates into the
  McpError messages.
- String.prototype.toLowerCase and String.prototype.includes are embedded
  as character-wise lowercasing and character-list infix containment.
-/

/-- JS substring containment: the embedding of String.prototype.includes. -/
def strIncludes (s pat : String) : Bool := decide (pat.data <:+: s.data)

/-- Character-wise lowercasing: the embedding of String.prototype.toLowerCase. -/
def strToLower (s : String) : String := ⟨s.data.map Char.toLower⟩

/-- The credential fields of ZohoConfig that drive the dispatch logic.
The environment loader defaults every field to the empty string, so the JS
truthiness tests on these fields are emptiness tests.  portalId and the two
domain fields only contribute to URL building and are omitted. -/
structure ZohoConfig where
  accessToken : String
  refreshToken : String
  clientId : String
  clientSecret : String
deriving Repr, DecidableEq

/-- The mutable server state: the config object plus tokenExpiresAt
(Unix milliseconds). -/
structure ServerState where
  config : ZohoConfig
  tokenExpiresAt : Int
deriving Repr, DecidableEq

/-- Constructor line 58: tokenExpiresAt is Date.now() + 3600 * 1000 when an
access token was supplied via configuration, and 0 otherwise. -/
def initTokenExpiresAt (accessToken : String) (now : Int) : Int :=
  if accessToken ≠ "" then now + 3600 * 1000 else 0

/-- An HTTP response as the dispatch layer observes it: status, body text
(also serving as the parsed JSON payload) and content-type header
(empty string meaning the header is absent). -/
structure FetchResponse where
  status : Nat
  body : String
  contentType : String
deriving Repr, DecidableEq

/-- The ok flag of the fetch Response object. -/
def FetchResponse.ok (r : FetchResponse) : Bool :=
  decide (200 ≤ r.status ∧ r.status < 300)

/-- One outcome of a fetch against the resource API: either a network-level
rejection or a response. -/
inductive FetchOutcome where
  | netErr (msg : String)
  | resp (r : FetchResponse)
deriving Repr, DecidableEq

/-- One outcome of a POST to the OAuth token endpoint: network rejection,
non-2xx response (status and body text), or a parsed success payload
carrying access_token and expires_in seconds. -/
inductive RefreshOutcome where
  | netErr (msg : String)
  | httpErr (status : Nat) (errorText : String)
  | success (accessToken : String) (expiresIn : Int)
deriving Repr, DecidableEq

/-- True when the outcome makes refreshAccessToken throw. -/
def RefreshOutcome.isFailure : RefreshOutcome → Bool
  | .netErr _ => true
  | .httpErr _ _ => true
  | .success _ _ => false

/-- The external world of one logical call: the current clock reading and
the outcomes the token endpoint and the resource endpoint will produce, in
call order. -/
structure World where
  now : Int
  refreshResults : List RefreshOutcome
  fetchResults : List FetchOutcome
deriving Repr, DecidableEq

/-- Consume the next token-endpoint outcome.  An exhausted oracle behaves
like an unreachable endpoint. -/
def takeRefresh (w : World) : RefreshOutcome × World :=
  match w.refreshResults with
  | [] => (.netErr "token endpoint unreachable", w)
  | o :: rest => (o, { w with refreshResults := rest })

/-- Consume the next resource-endpoint outcome. -/
def takeFetch (w : World) : FetchOutcome × World :=
  match w.fetchResults with
  | [] => (.netErr "resource endpoint unreachable", w)
  | o :: rest => (o, { w with fetchResults := rest })

/-- Observable external calls of a dispatch: a POST to the token endpoint,
or a resource fetch recording the bearer token of its Authorization
header. -/
inductive CallEvent where
  | refreshCall
  | apiCall (authToken : String)
deriving Repr, DecidableEq

/-- The bearer tokens of the resource fetches, in order. -/
def apiTokens (evs : List CallEvent) : List String :=
  evs.filterMap fun e => match e with | .apiCall t => some t | .refreshCall => none

/-- The thrown exceptions of the dispatch layer, one constructor per throw
site of the source, carrying the data the source puts into the message. -/
inductive ThrownError where
  | refreshFailedHttp (status : Nat) (errorText : String)
  | refreshFailedNet (msg : String)
  | missingCredential
  | remoteApiError (status : Nat) (body : String)
  | fetchRejected (msg : String)
  | imageFailed (status : Nat) (body : String)
  | imageRetryFailed (status : Nat)
  | imageWrapped (msg : String)
deriving Repr, DecidableEq

/-- True exactly on the two errors produced by the catch block of
refreshAccessToken (McpError InternalError, failed to refresh). -/
def ThrownError.isRefreshFailure : ThrownError → Bool
  | .refreshFailedHttp _ _ => true
  | .refreshFailedNet _ => true
  | _ => false

/-- True when a dispatch outcome is a refresh-failure exception. -/
def errIsRefreshFailure {α : Type} : Except ThrownError α → Bool
  | .error e => e.isRefreshFailure
  | .ok _ => false

/-- Outcome of a stateful step: updated state and world, the external calls
it made, and the exception it threw, if any. -/
structure StepResult where
  state : ServerState
  world : World
  events : List CallEvent
  err : Option ThrownError
deriving Repr, DecidableEq

/-- Embedding of refreshAccessToken (index.ts lines 63-108).  When any of
the refresh triple is empty it logs and returns without any call; otherwise
it POSTs the token endpoint; a non-ok response or network rejection is
caught and rethrown as a refresh-failure McpError; on success access token
and expiry are replaced together, the expiry being Date.now() plus
(expires_in - 300) seconds in milliseconds. -/
def refreshAccessToken (st : ServerState) (w : World) : StepResult :=
  if st.config.refreshToken = "" ∨ st.config.clientId = "" ∨ st.config.clientSecret = "" then
    { state := st, world := w, events := [], err := none }
  else
    match takeRefresh w with
    | (.netErr msg, w1) =>
        { state := st, world := w1, events := [.refreshCall],
          err := some (.refreshFailedNet msg) }
    | (.httpErr status errorText, w1) =>
        { state := st, world := w1, events := [.refreshCall],
          err := some (.refreshFailedHttp status errorText) }
    | (.success tok expiresIn, w1) =>
        { state := { config := { st.config with accessToken := tok },
                     tokenExpiresAt := w1.now + (expiresIn - 300) * 1000 },
          world := w1, events := [.refreshCall], err := none }

/-- The proactive step shared by makeRequest and downloadInlineImage: when
Date.now() has reached tokenExpiresAt, await refreshAccessToken (whose
exception, if any, propagates to the caller of the dispatch). -/
def proactiveRefresh (st : ServerState) (w : World) : StepResult :=
  if w.now ≥ st.tokenExpiresAt then refreshAccessToken st w
  else { state := st, world := w, events := [], err := none }

/-- Result of one dispatch: final state and world, the external calls made,
and either the parsed JSON body or the thrown exception. -/
structure DispatchResult where
  state : ServerState
  world : World
  events : List CallEvent
  result : Except ThrownError String
deriving Repr

/-- Embedding of makeRequest (index.ts lines 110-173).  The fuel argument
only renders the recursion structural; makeRequest enters with fuel 2 and
the single recursive call (guarded by isRetry = false) enters with fuel 1,
so fuel 0 is never reached from makeRequest.  Control flow: proactive
refresh (an exception there propagates), empty-token guard, resource fetch,
and on a non-ok response: when it is a 401, this is not the retry, and the
refresh triple is configured, the try block awaits refreshAccessToken and
returns the recursive retry; the catch block catches any exception of that
try block, logs it as a refresh failure and falls through to throw the
McpError built from the original response status and body text. -/
def makeRequestGo : Nat → ServerState → World → Bool → DispatchResult
  | 0, st, w, _ =>
      { state := st, world := w, events := [],
        result := .error (.fetchRejected "fuel exhausted") }
  | Nat.succ fuel, st, w, isRetry =>
    let p := proactiveRefresh st w
    match p.err with
    | some e =>
        { state := p.state, world := p.world, events := p.events, result := .error e }
    | none =>
      if p.state.config.accessToken = "" then
        { state := p.state, world := p.world, events := p.events,
          result := .error .missingCredential }
      else
        match takeFetch p.world with
        | (.netErr msg, w2) =>
            { state := p.state, world := w2,
              events := p.events ++ [.apiCall p.state.config.accessToken],
              result := .error (.fetchRejected msg) }
        | (.resp r, w2) =>
          let evs := p.events ++ [.apiCall p.state.config.accessToken]
          if r.ok then
            { state := p.state, world := w2, events := evs, result := .ok r.body }
          else if r.status = 401 ∧ isRetry = false ∧ p.state.config.refreshToken ≠ ""
                    ∧ p.state.config.clientId ≠ "" ∧ p.state.config.clientSecret ≠ "" then
            let rr := refreshAccessToken p.state w2
            match rr.err with
            | some _ =>
                { state := rr.state, world := rr.world, events := evs ++ rr.events,
                  result := .error (.remoteApiError r.status r.body) }
            | none =>
              let retry := makeRequestGo fuel rr.state rr.world true
              match retry.result with
              | .ok v =>
                  { state := retry.state, world := retry.world,
                    events := evs ++ rr.events ++ retry.events, result := .ok v }
              | .error _ =>
                  { state := retry.state, world := retry.world,
                    events := evs ++ rr.events ++ retry.events,
                    result := .error (.remoteApiError r.status r.body) }
          else
            { state := p.state, world := w2, events := evs,
              result := .error (.remoteApiError r.status r.body) }

/-- A top-level dispatch: makeRequest with isRetry defaulted to false. -/
def makeRequest (st : ServerState) (w : World) : DispatchResult :=
  makeRequestGo 2 st w false

/-- The viewInlineAttachment to viewInlineAttachmentForApi URL rewrite of
downloadInlineImage (index.ts lines 1390-1393): a pure string transform
applied before the authenticated GET. -/
def toApiUrl (imageUrl : String) : String :=
  if strIncludes imageUrl "/viewInlineAttachment/" then
    imageUrl.replace "/viewInlineAttachment/" "/viewInlineAttachmentForApi/"
  else imageUrl

/-- The media type computation of processImageResponse (lines 1435-1450). -/
def mediaTypeOf (ct : String) : String :=
  let contentType := if ct = "" then "image/png" else ct
  if strIncludes contentType "jpeg" || strIncludes contentType "jpg" then "image/jpeg"
  else if strIncludes contentType "gif" then "image/gif"
  else if strIncludes contentType "webp" then "image/webp"
  else if strIncludes contentType "png" then "image/png"
  else "image/png"

/-- The image payload returned to the router: response bytes (the base64
transport encoding is a bijective re-encoding and is abstracted away) and
the media type derived from the content-type header. -/
structure ImageContent where
  data : String
  mimeType : String
deriving Repr, DecidableEq

/-- Embedding of processImageResponse (index.ts lines 1435-1461). -/
def processImageResponse (r : FetchResponse) : ImageContent :=
  { data := r.body, mimeType := mediaTypeOf r.contentType }

/-- Result of one inline-image download. -/
structure ImageResult where
  state : ServerState
  world : World
  events : List CallEvent
  result : Except ThrownError ImageContent
deriving Repr

/-- Embedding of downloadInlineImage (index.ts lines 1375-1433).  Proactive
refresh and empty-token guard sit before the try block, so a proactive
refresh exception propagates unchanged.  Inside the try block: the first
fetch; on a non-ok response, when it is a 401 and refreshToken alone is
truthy, await refreshAccessToken (an exception there is an McpError, which
the catch block rethrows unchanged) and issue one retry fetch, whose non-ok
response throws the after-token-refresh McpError carrying the retry status;
a non-401 non-ok first response throws the download-failed McpError with
the first status and body; a network rejection of either fetch is not an
McpError and is wrapped by the catch block. -/
def downloadInlineImage (st : ServerState) (w : World) : ImageResult :=
  let p := proactiveRefresh st w
  match p.err with
  | some e =>
      { state := p.state, world := p.world, events := p.events, result := .error e }
  | none =>
    if p.state.config.accessToken = "" then
      { state := p.state, world := p.world, events := p.events,
        result := .error .missingCredential }
    else
      match takeFetch p.world with
      | (.netErr msg, w2) =>
          { state := p.state, world := w2,
            events := p.events ++ [.apiCall p.state.config.accessToken],
            result := .error (.imageWrapped msg) }
      | (.resp r, w2) =>
        let evs := p.events ++ [.apiCall p.state.config.accessToken]
        if r.ok then
          { state := p.state, world := w2, events := evs,
            result := .ok (processImageResponse r) }
        else if r.status = 401 ∧ p.state.config.refreshToken ≠ "" then
          let rr := refreshAccessToken p.state w2
          match rr.err with
          | some e =>
              { state := rr.state, world := rr.world, events := evs ++ rr.events,
                result := .error e }
          | none =>
            match takeFetch rr.world with
            | (.netErr msg, w3) =>
                { state := rr.state, world := w3,
                  events := evs ++ rr.events ++ [.apiCall rr.state.config.accessToken],
                  result := .error (.imageWrapped msg) }
            | (.resp r2, w3) =>
              let evs2 := evs ++ rr.events ++ [.apiCall rr.state.config.accessToken]
              if r2.ok then
                { state := rr.state, world := w3, events := evs2,
                  result := .ok (processImageResponse r2) }
              else
                { state := rr.state, world := w3, events := evs2,
                  result := .error (.imageRetryFailed r2.status) }
        else
          { state := p.state, world := w2, events := evs,
            result := .error (.imageFailed r.status r.body) }

/-- One tasklist object of the tasklists JSON response: its id, its name
field (none when the field is absent) and the remaining fields of the
object, abstracted as key-value pairs. -/
structure Tasklist where
  id : String
  name : Option String
  extraFields : List (String × String)
deriving Repr, DecidableEq

/-- JS truthiness of an optional string value: false for undefined and for
the empty string. -/
def strTruthy : Option String → Bool
  | none => false
  | some s => s ≠ ""

/-- The parsed JSON response of the tasklists endpoint: the optional
tasklists array plus the other top-level fields, abstracted as key-value
pairs (spread back into the non-minimal output). -/
structure TasklistsData where
  tasklists : Option (List Tasklist)
  otherFields : List (String × String)
deriving Repr, DecidableEq

/-- The minimal projection of a tasklist: exactly the two fields id and
name (index.ts lines 1190-1193). -/
structure MinimalTasklist where
  id : String
  name : Option String
deriving Repr, DecidableEq

/-- The projection applied to each tasklist in the minimal format. -/
def minimalProj (t : Tasklist) : MinimalTasklist :=
  { id := t.id, name := t.name }

/-- The payload serialized into the text content of listTasklists: either
the minimal projection list or the full data with the filtered array. -/
inductive TasklistsOutput where
  | minimal (items : List MinimalTasklist)
  | full (data : TasklistsData) (tasklists : List Tasklist)
deriving Repr, DecidableEq

/-- Embedding of the response shaping of listTasklists (index.ts lines
1178-1201): default the array, apply the client-side name filter when the
name_contains argument is truthy (keep t when t.name is truthy and its
lowercasing contains the lowercased search string), then either project to
minimal objects or return the full data. -/
def listTasklistsShape (data : TasklistsData) (nameContains : Option String)
    (minimal : Bool) : TasklistsOutput :=
  let tasklists := data.tasklists.getD []
  let tasklists :=
    if strTruthy nameContains then
      let searchLower := strToLower (nameContains.getD "")
      tasklists.filter fun t =>
        strTruthy t.name && strIncludes (strToLower (t.name.getD "")) searchLower
    else tasklists
  if minimal then
    .minimal (tasklists.map minimalProj)
  else
    .full data tasklists

/-- The predicate of claim C10, written from its words: the tasklist has a
name that contains the search string case-insensitively. -/
def nameContainsCI (pat : String) (t : Tasklist) : Bool :=
  match t.name with
  | some n => strIncludes (strToLower n) (strToLower pat)
  | none => false

/-!
Helper lemmas about the embedded operations, shared by the claim theorems.
-/

lemma refreshAccessToken_apiTokens (st : ServerState) (w : World) :
    apiTokens (refreshAccessToken st w).events = [] := by
  unfold refreshAccessToken
  split
  · rfl
  · split <;> rfl

lemma proactiveRefresh_fresh (st : ServerState) (w : World)
    (h : w.now < st.tokenExpiresAt) :
    proactiveRefresh st w = { state := st, world := w, events := [], err := none } := by
  unfold proactiveRefresh
  rw [if_neg (not_le.mpr h)]

lemma refreshAccessToken_missing (st : ServerState) (w : World)
    (h : st.config.refreshToken = "" ∨ st.config.clientId = "" ∨ st.config.clientSecret = "") :
    refreshAccessToken st w = { state := st, world := w, events := [], err := none } := by
  unfold refreshAccessToken
  rw [if_pos h]

lemma proactiveRefresh_missing (st : ServerState) (w : World)
    (h : st.config.refreshToken = "" ∨ st.config.clientId = "" ∨ st.config.clientSecret = "") :
    proactiveRefresh st w = { state := st, world := w, events := [], err := none } := by
  unfold proactiveRefresh
  split
  · exact refreshAccessToken_missing st w h
  · rfl

lemma proactiveRefresh_apiTokens (st : ServerState) (w : World) :
    apiTokens (proactiveRefresh st w).events = [] := by
  unfold proactiveRefresh
  split
  · exact refreshAccessToken_apiTokens st w
  · rfl

lemma mem_apiTokens {t : String} {l : List CallEvent} :
    t ∈ apiTokens l ↔ CallEvent.apiCall t ∈ l := by
  unfold apiTokens
  rw [List.mem_filterMap]
  constructor
  · rintro ⟨e, he, hm⟩
    cases e with
    | refreshCall => simp at hm
    | apiCall u =>
        simp only [Option.some.injEq] at hm
        subst hm
        exact he
  · intro h
    exact ⟨.apiCall t, h, rfl⟩

lemma refreshAccessToken_no_apiCall (st : ServerState) (w : World) (t : String) :
    CallEvent.apiCall t ∉ (refreshAccessToken st w).events := by
  unfold refreshAccessToken
  split
  · simp
  · split <;> simp

lemma proactiveRefresh_no_apiCall (st : ServerState) (w : World) (t : String) :
    CallEvent.apiCall t ∉ (proactiveRefresh st w).events := by
  unfold proactiveRefresh
  split
  · exact refreshAccessToken_no_apiCall st w t
  · simp

lemma refreshAccessToken_success (st : ServerState) (w : World) (tok : String)
    (ein : Int) (rrest : List RefreshOutcome)
    (hr : st.config.refreshToken ≠ "") (hc : st.config.clientId ≠ "")
    (hs : st.config.clientSecret ≠ "")
    (hro : w.refreshResults = .success tok ein :: rrest) :
    refreshAccessToken st w =
      { state := ⟨⟨tok, st.config.refreshToken, st.config.clientId, st.config.clientSecret⟩,
          w.now + (ein - 300) * 1000⟩,
        world := ⟨w.now, rrest, w.fetchResults⟩,
        events := [.refreshCall], err := none } := by
  obtain ⟨n, rres, fres⟩ := w
  simp only at hro
  subst hro
  unfold refreshAccessToken takeRefresh
  simp [hr, hc, hs]

lemma makeRequestGo_one_retry (st : ServerState) (w : World)
    (hfresh : w.now < st.tokenExpiresAt) (htok : st.config.accessToken ≠ "") :
    (makeRequestGo 1 st w true).events = [.apiCall st.config.accessToken] ∧
    (makeRequestGo 1 st w true).state = st := by
  obtain ⟨n, rres, fres⟩ := w
  unfold makeRequestGo
  rw [proactiveRefresh_fresh _ _ hfresh]
  cases fres with
  | nil => simp [takeFetch, htok]
  | cons fo rest =>
    cases fo with
    | netErr m => simp [takeFetch, htok]
    | resp r =>
      by_cases hok : r.ok
      · simp [takeFetch, htok, hok]
      · simp [takeFetch, htok, hok]

lemma makeRequestGo_no_empty_token :
    ∀ (fuel : Nat) (st : ServerState) (w : World) (isRetry : Bool) (t : String),
      t ∈ apiTokens (makeRequestGo fuel st w isRetry).events → t ≠ "" := by
  intro fuel
  induction fuel with
  | zero =>
    intro st w i t ht
    simp [makeRequestGo, apiTokens] at ht
  | succ fuel ih =>
    intro st w i t ht
    rw [mem_apiTokens] at ht
    simp only [makeRequestGo] at ht
    split at ht
    · exact absurd ht (proactiveRefresh_no_apiCall st w t)
    · split at ht
      · exact absurd ht (proactiveRefresh_no_apiCall st w t)
      · rename_i hne
        split at ht
        · rw [List.mem_append] at ht
          rcases ht with h | h
          · exact absurd h (proactiveRefresh_no_apiCall st w t)
          · simp only [List.mem_singleton, CallEvent.apiCall.injEq] at h
            subst h
            exact hne
        · split at ht
          · rw [List.mem_append] at ht
            rcases ht with h | h
            · exact absurd h (proactiveRefresh_no_apiCall st w t)
            · simp only [List.mem_singleton, CallEvent.apiCall.injEq] at h
              subst h
              exact hne
          · split at ht
            · split at ht
              · rw [List.mem_append, List.mem_append] at ht
                rcases ht with (h | h) | h
                · exact absurd h (proactiveRefresh_no_apiCall st w t)
                · simp only [List.mem_singleton, CallEvent.apiCall.injEq] at h
                  subst h
                  exact hne
                · exact absurd h (refreshAccessToken_no_apiCall _ _ t)
              · split at ht <;>
                · rw [List.mem_append, List.mem_append, List.mem_append] at ht
                  rcases ht with ((h | h) | h) | h
                  · exact absurd h (proactiveRefresh_no_apiCall st w t)
                  · simp only [List.mem_singleton, CallEvent.apiCall.injEq] at h
                    subst h
                    exact hne
                  · exact absurd h (refreshAccessToken_no_apiCall _ _ t)
                  · exact ih _ _ _ t (mem_apiTokens.mpr h)
            · rw [List.mem_append] at ht
              rcases ht with h | h
              · exact absurd h (proactiveRefresh_no_apiCall st w t)
              · simp only [List.mem_singleton, CallEvent.apiCall.injEq] at h
                subst h
                exact hne

lemma strToLower_data_ne_nil (s : String) (h : s ≠ "") : (strToLower s).data ≠ [] := by
  intro hd
  simp only [strToLower, List.map_eq_nil_iff] at hd
  exact h (String.ext hd)

/-!
Claim theorems.  Each claim of the specification gets one theorem; corrected
claims additionally get a counterexample refuting the original wording, and
theorems with hypotheses get a closed witness instantiating them.
-/

/-- Claim C1, counterexample: a dispatch whose first attempt returns 401
with the full refresh triple configured, but whose 401-triggered refresh
call fails with a network error, performs no retry HTTP call at all (a
single resource fetch in total), refuting the unconditional claim that
exactly one retry occurs for every such dispatch. -/
theorem C1_counterexample :
    (makeRequest ⟨⟨"A", "r", "c", "s"⟩, 1000⟩
      ⟨0, [.netErr "econnrefused"], [.resp ⟨401, "unauth", ""⟩]⟩).events
      = [.apiCall "A", .refreshCall] ∧
    (apiTokens (makeRequest ⟨⟨"A", "r", "c", "s"⟩, 1000⟩
      ⟨0, [.netErr "econnrefused"], [.resp ⟨401, "unauth", ""⟩]⟩).events).length = 1 :=
  ⟨rfl, rfl⟩

/-- Claim C1 (amended): for a dispatch with a fresh nonempty token whose
first HTTP attempt returns 401, where the refresh triple is configured and
the 401-triggered refresh call succeeds with a nonempty token valid beyond
the 300 second margin, exactly one token-refresh call and exactly one retry
HTTP call occur, the retry carries the newly stored token in its
Authorization header, and in total exactly two HTTP requests reach the
remote API. -/
theorem C1_single_retry_with_new_token
    (st : ServerState) (w : World) (r1 : FetchResponse) (frest : List FetchOutcome)
    (tok : String) (ein : Int) (rrest : List RefreshOutcome)
    (hfresh : w.now < st.tokenExpiresAt)
    (htok : st.config.accessToken ≠ "")
    (hr : st.config.refreshToken ≠ "") (hc : st.config.clientId ≠ "")
    (hs : st.config.clientSecret ≠ "")
    (hf : w.fetchResults = .resp r1 :: frest)
    (h401 : r1.status = 401)
    (hro : w.refreshResults = .success tok ein :: rrest)
    (hein : 300 < ein)
    (htok2 : tok ≠ "") :
    (makeRequest st w).events =
      [.apiCall st.config.accessToken, .refreshCall, .apiCall tok] ∧
    (makeRequest st w).state.config.accessToken = tok := by
  obtain ⟨n, rres, fres⟩ := w
  obtain ⟨stat, body, ct⟩ := r1
  simp only at hf hro h401 hfresh
  subst hf hro h401
  unfold makeRequest makeRequestGo
  rw [proactiveRefresh_fresh _ _ hfresh]
  have hretry := makeRequestGo_one_retry
    ⟨⟨tok, st.config.refreshToken, st.config.clientId, st.config.clientSecret⟩,
      n + (ein - 300) * 1000⟩ ⟨n, rrest, frest⟩ (by simp; omega) htok2
  rcases hres : (makeRequestGo 1
      ⟨⟨tok, st.config.refreshToken, st.config.clientId, st.config.clientSecret⟩,
        n + (ein - 300) * 1000⟩ ⟨n, rrest, frest⟩ true).result with v | e <;>
    simp [takeFetch, takeRefresh, refreshAccessToken, FetchResponse.ok,
      htok, hr, hc, hs, hres, hretry.1, hretry.2]

/-- Claim C1, witness: concrete run of the amended theorem. -/
theorem C1_witness :
    (makeRequest ⟨⟨"A", "r", "c", "s"⟩, 1000⟩
      ⟨0, [.success "B" 3600], [.resp ⟨401, "unauth", ""⟩, .resp ⟨200, "okbody", ""⟩]⟩).events
      = [.apiCall "A", .refreshCall, .apiCall "B"] ∧
    (makeRequest ⟨⟨"A", "r", "c", "s"⟩, 1000⟩
      ⟨0, [.success "B" 3600],
        [.resp ⟨401, "unauth", ""⟩, .resp ⟨200, "okbody", ""⟩]⟩).state.config.accessToken
      = "B" :=
  C1_single_retry_with_new_token ⟨⟨"A", "r", "c", "s"⟩, 1000⟩
    ⟨0, [.success "B" 3600], [.resp ⟨401, "unauth", ""⟩, .resp ⟨200, "okbody", ""⟩]⟩
    ⟨401, "unauth", ""⟩ [.resp ⟨200, "okbody", ""⟩] "B" 3600 []
    (by decide) (by decide) (by decide) (by decide) (by decide) rfl rfl rfl
    (by decide) (by decide)

/-- Claim C2, counterexample: a dispatch that is stale at entry and whose
proactive refresh call fails with an HTTP 500 aborts with the refresh
failure and issues no resource HTTP call at all, refuting the claim that
the failure is swallowed and the dispatch proceeds with the stored
token. -/
theorem C2_counterexample :
    (makeRequest ⟨⟨"A", "r", "c", "s"⟩, 0⟩
      ⟨0, [.httpErr 500 "bad"], [.resp ⟨200, "okbody", ""⟩]⟩).result
      = .error (.refreshFailedHttp 500 "bad") ∧
    apiTokens (makeRequest ⟨⟨"A", "r", "c", "s"⟩, 0⟩
      ⟨0, [.httpErr 500 "bad"], [.resp ⟨200, "okbody", ""⟩]⟩).events = [] :=
  ⟨rfl, rfl⟩

/-- Claim C2 (amended): for a dispatch that is stale at entry, a proactive
refresh attempt with the refresh triple configured whose token-endpoint
call fails (non-2xx or network error) aborts the dispatch with a refresh
failure before any resource HTTP call; only the missing-credentials case is
swallowed, in which the dispatch proceeds to the resource call with the
currently stored token. -/
theorem C2_proactive_refresh_failure_behavior
    (st : ServerState) (w : World)
    (hstale : st.tokenExpiresAt ≤ w.now) :
    ((st.config.refreshToken ≠ "" ∧ st.config.clientId ≠ "" ∧ st.config.clientSecret ≠ "") →
      ∀ (o : RefreshOutcome) (orest : List RefreshOutcome),
        w.refreshResults = o :: orest → o.isFailure = true →
        errIsRefreshFailure (makeRequest st w).result = true ∧
        apiTokens (makeRequest st w).events = []) ∧
    ((st.config.refreshToken = "" ∨ st.config.clientId = "" ∨ st.config.clientSecret = "") →
      st.config.accessToken ≠ "" →
      (makeRequest st w).events.head? = some (.apiCall st.config.accessToken)) := by
  obtain ⟨n, rres, fres⟩ := w
  simp only at hstale
  constructor
  · rintro ⟨hr, hc, hs⟩ o orest hro hfail
    simp only at hro
    subst hro
    unfold makeRequest makeRequestGo proactiveRefresh
    rw [if_pos hstale]
    cases o with
    | netErr msg =>
        simp [refreshAccessToken, takeRefresh, hr, hc, hs, apiTokens,
          errIsRefreshFailure, ThrownError.isRefreshFailure]
    | httpErr stt txt =>
        simp [refreshAccessToken, takeRefresh, hr, hc, hs, apiTokens,
          errIsRefreshFailure, ThrownError.isRefreshFailure]
    | success tk e => simp [RefreshOutcome.isFailure] at hfail
  · rintro hmiss htok
    unfold makeRequest makeRequestGo
    rw [proactiveRefresh_missing _ _ hmiss]
    rcases hmiss with h | h | h <;>
    · cases fres with
      | nil => simp [takeFetch, htok, h]
      | cons fo rest =>
        cases fo with
        | netErr m => simp [takeFetch, htok, h]
        | resp r =>
          by_cases hok : r.ok <;> simp [takeFetch, htok, h, hok]

/-- Claim C2, witness: concrete run of the amended theorem. -/
theorem C2_witness :
    errIsRefreshFailure (makeRequest ⟨⟨"A", "r", "c", "s"⟩, 0⟩
      ⟨0, [.httpErr 502 "gateway"], []⟩).result = true ∧
    apiTokens (makeRequest ⟨⟨"A", "r", "c", "s"⟩, 0⟩
      ⟨0, [.httpErr 502 "gateway"], []⟩).events = [] :=
  (C2_proactive_refresh_failure_behavior ⟨⟨"A", "r", "c", "s"⟩, 0⟩
      ⟨0, [.httpErr 502 "gateway"], []⟩ (by decide)).1
    ⟨by decide, by decide, by decide⟩ (.httpErr 502 "gateway") [] rfl rfl

/-- Claim C3: for a dispatch with a fresh nonempty token whose first HTTP
attempt returns 401, with the refresh triple configured and the subsequent
401-triggered refresh call failing, the dispatch terminates with the error
carrying the original 401 status code and body text (not a refresh-specific
error), and no retry HTTP call is issued. -/
theorem C3_original_401_surfaced
    (st : ServerState) (w : World) (r1 : FetchResponse) (frest : List FetchOutcome)
    (o : RefreshOutcome) (orest : List RefreshOutcome)
    (hfresh : w.now < st.tokenExpiresAt)
    (htok : st.config.accessToken ≠ "")
    (hr : st.config.refreshToken ≠ "") (hc : st.config.clientId ≠ "")
    (hs : st.config.clientSecret ≠ "")
    (hf : w.fetchResults = .resp r1 :: frest)
    (h401 : r1.status = 401)
    (hro : w.refreshResults = o :: orest)
    (hfail : o.isFailure = true) :
    (makeRequest st w).result = .error (.remoteApiError 401 r1.body) ∧
    apiTokens (makeRequest st w).events = [st.config.accessToken] := by
  obtain ⟨n, rres, fres⟩ := w
  obtain ⟨stat, body, ct⟩ := r1
  simp only at hf hro h401 hfresh
  subst hf hro h401
  unfold makeRequest makeRequestGo
  rw [proactiveRefresh_fresh _ _ hfresh]
  cases o with
  | netErr msg =>
      simp [takeFetch, takeRefresh, refreshAccessToken, FetchResponse.ok,
        htok, hr, hc, hs, apiTokens]
  | httpErr stt txt =>
      simp [takeFetch, takeRefresh, refreshAccessToken, FetchResponse.ok,
        htok, hr, hc, hs, apiTokens]
  | success tk e =>
      simp [RefreshOutcome.isFailure] at hfail

/-- Claim C3, witness: concrete run of the theorem. -/
theorem C3_witness :
    (makeRequest ⟨⟨"A", "r", "c", "s"⟩, 1000⟩
      ⟨0, [.netErr "down"], [.resp ⟨401, "denied", ""⟩]⟩).result
      = .error (.remoteApiError 401 "denied") ∧
    apiTokens (makeRequest ⟨⟨"A", "r", "c", "s"⟩, 1000⟩
      ⟨0, [.netErr "down"], [.resp ⟨401, "denied", ""⟩]⟩).events = ["A"] :=
  C3_original_401_surfaced ⟨⟨"A", "r", "c", "s"⟩, 1000⟩
    ⟨0, [.netErr "down"], [.resp ⟨401, "denied", ""⟩]⟩
    ⟨401, "denied", ""⟩ [] (.netErr "down") []
    (by decide) (by decide) (by decide) (by decide) (by decide) rfl rfl rfl rfl

/-- Claim C4: evaluation at the failing input.  A dispatch whose first
attempt returns 401 with body "unauthorized", whose 401-triggered refresh
succeeds, and whose single retry then returns 500 with body "server error",
terminates with the error carrying the ORIGINAL 401 status and body rather
than the retry status and body claimed by the specification: the catch
block around the try block that contains both the refresh call and the
recursive retry also catches the retry exception, logs it as a refresh
failure, and falls through to rethrow the original 401 error. -/
theorem C4_retry_failure_masked_by_original_401 :
    (makeRequest ⟨⟨"A", "r", "c", "s"⟩, 1000⟩
      ⟨0, [.success "B" 3600],
        [.resp ⟨401, "unauthorized", ""⟩, .resp ⟨500, "server error", ""⟩]⟩).result
      = .error (.remoteApiError 401 "unauthorized") ∧
    (makeRequest ⟨⟨"A", "r", "c", "s"⟩, 1000⟩
      ⟨0, [.success "B" 3600],
        [.resp ⟨401, "unauthorized", ""⟩, .resp ⟨500, "server error", ""⟩]⟩).events
      = [.apiCall "A", .refreshCall, .apiCall "B"] :=
  ⟨rfl, rfl⟩

/-- Claim C5: a dispatch never issues a resource HTTP call with an empty
bearer token (every Authorization token of every resource fetch of any run,
at any fuel and retry flag, is nonempty), and when the stored access token
is still empty after a proactive-refresh step that did not throw, the
dispatch fails with the missing-credential configuration error before any
resource request is issued. -/
theorem C5_no_empty_bearer (st : ServerState) (w : World) :
    (∀ (fuel : Nat) (isRetry : Bool) (t : String),
      t ∈ apiTokens (makeRequestGo fuel st w isRetry).events → t ≠ "") ∧
    ((proactiveRefresh st w).err = none →
      (proactiveRefresh st w).state.config.accessToken = "" →
      (makeRequest st w).result = .error .missingCredential ∧
      apiTokens (makeRequest st w).events = []) := by
  constructor
  · intro fuel i t ht
    exact makeRequestGo_no_empty_token fuel st w i t ht
  · intro hnone hempty
    simp only [makeRequest, makeRequestGo]
    split
    · rename_i e heq
      rw [hnone] at heq
      cases heq
    · rw [if_pos hempty]
      exact ⟨rfl, proactiveRefresh_apiTokens st w⟩

/-- Claim C5, witness: concrete run with an empty token and no refresh
credentials. -/
theorem C5_witness :
    (makeRequest ⟨⟨"", "", "", ""⟩, 0⟩ ⟨0, [], []⟩).result = .error .missingCredential ∧
    apiTokens (makeRequest ⟨⟨"", "", "", ""⟩, 0⟩ ⟨0, [], []⟩).events = [] :=
  (C5_no_empty_bearer ⟨⟨"", "", "", ""⟩, 0⟩ ⟨0, [], []⟩).2 rfl rfl

/-- Claim C6: for a dispatch with a nonempty token whose first HTTP attempt
returns 401 while at least one of the refresh triple is not configured, no
retry HTTP call and no token-endpoint call occur, and the 401 is surfaced
immediately as the terminal error. -/
theorem C6_no_retry_without_credentials
    (st : ServerState) (w : World) (r1 : FetchResponse) (frest : List FetchOutcome)
    (hmiss : st.config.refreshToken = "" ∨ st.config.clientId = "" ∨ st.config.clientSecret = "")
    (htok : st.config.accessToken ≠ "")
    (hf : w.fetchResults = .resp r1 :: frest)
    (h401 : r1.status = 401) :
    (makeRequest st w).result = .error (.remoteApiError 401 r1.body) ∧
    (makeRequest st w).events = [.apiCall st.config.accessToken] := by
  obtain ⟨n, rres, fres⟩ := w
  obtain ⟨stat, body, ct⟩ := r1
  simp only at hf h401
  subst hf h401
  unfold makeRequest makeRequestGo
  rw [proactiveRefresh_missing _ _ hmiss]
  rcases hmiss with h | h | h <;>
    simp [takeFetch, FetchResponse.ok, htok, h]

/-- Claim C6, witness: concrete run with a missing client id. -/
theorem C6_witness :
    (makeRequest ⟨⟨"A", "r", "", "s"⟩, 0⟩
      ⟨5, [.success "B" 3600], [.resp ⟨401, "unauth", ""⟩]⟩).result
      = .error (.remoteApiError 401 "unauth") ∧
    (makeRequest ⟨⟨"A", "r", "", "s"⟩, 0⟩
      ⟨5, [.success "B" 3600], [.resp ⟨401, "unauth", ""⟩]⟩).events
      = [.apiCall "A"] :=
  C6_no_retry_without_credentials ⟨⟨"A", "r", "", "s"⟩, 0⟩
    ⟨5, [.success "B" 3600], [.resp ⟨401, "unauth", ""⟩]⟩
    ⟨401, "unauth", ""⟩ [] (Or.inr (Or.inl rfl)) (by decide) rfl rfl

/-- Claim C7: every successful refresh replaces the stored access token and
expiry together, the new expiry being now + (expires_in - 300) seconds in
milliseconds; and in the scenario of the specification (stale token A at
expiresAt = now - 1 s, refresh returning token B with expires_in 3600), the
resource call carries bearer token B and the stored expiry equals
now + 3300 s, not now + 3600 s. -/
theorem C7_refresh_pair_update_margin
    (st : ServerState) (w : World) (tok : String) (ein : Int) (rrest : List RefreshOutcome)
    (hr : st.config.refreshToken ≠ "") (hc : st.config.clientId ≠ "")
    (hs : st.config.clientSecret ≠ "")
    (hro : w.refreshResults = .success tok ein :: rrest) :
    ((refreshAccessToken st w).state.config.accessToken = tok ∧
     (refreshAccessToken st w).state.tokenExpiresAt = w.now + (ein - 300) * 1000 ∧
     (refreshAccessToken st w).err = none) ∧
    ((makeRequest ⟨⟨"A", "r", "c", "s"⟩, -1000⟩
        ⟨0, [.success "B" 3600], [.resp ⟨200, "okbody", ""⟩]⟩).events
        = [.refreshCall, .apiCall "B"] ∧
     (makeRequest ⟨⟨"A", "r", "c", "s"⟩, -1000⟩
        ⟨0, [.success "B" 3600], [.resp ⟨200, "okbody", ""⟩]⟩).state.tokenExpiresAt
        = 3300 * 1000 ∧
     (3300 * 1000 : Int) ≠ 3600 * 1000) := by
  rw [refreshAccessToken_success st w tok ein rrest hr hc hs hro]
  refine ⟨⟨rfl, rfl, rfl⟩, rfl, rfl, by norm_num⟩

/-- Claim C7, witness: concrete run of the general conjunct. -/
theorem C7_witness :
    (refreshAccessToken ⟨⟨"A", "r", "c", "s"⟩, 50⟩
      ⟨7, [.success "T" 1000], []⟩).state.config.accessToken = "T" ∧
    (refreshAccessToken ⟨⟨"A", "r", "c", "s"⟩, 50⟩
      ⟨7, [.success "T" 1000], []⟩).state.tokenExpiresAt = 7 + (1000 - 300) * 1000 ∧
    (refreshAccessToken ⟨⟨"A", "r", "c", "s"⟩, 50⟩
      ⟨7, [.success "T" 1000], []⟩).err = none :=
  (C7_refresh_pair_update_margin ⟨⟨"A", "r", "c", "s"⟩, 50⟩
    ⟨7, [.success "T" 1000], []⟩ "T" 1000 []
    (by decide) (by decide) (by decide) rfl).1

/-- Claim C8, counterexample: the expiry stored at process start when an
access token is supplied is now + 3600 s flat; it does not carry the
300 second margin relative to the 3600 s lifetime the constructor assumes
(it differs from now + (3600 - 300) s). -/
theorem C8_counterexample :
    initTokenExpiresAt "A" 0 = 3600 * 1000 ∧
    (3600 * 1000 : Int) ≠ 0 + (3600 - 300) * 1000 :=
  ⟨rfl, by norm_num⟩

/-- Claim C8 (amended): every expiry stored by the token refresher equals
the estimated true expiry (now + expires_in seconds) minus the fixed
300 second margin; the process-start value, however, is now + 3600 s with
no margin subtracted when a token is supplied, and 0 when none is. -/
theorem C8_margin_amended
    (st : ServerState) (w : World) (tok : String) (ein : Int) (rrest : List RefreshOutcome)
    (hr : st.config.refreshToken ≠ "") (hc : st.config.clientId ≠ "")
    (hs : st.config.clientSecret ≠ "")
    (hro : w.refreshResults = .success tok ein :: rrest) :
    (refreshAccessToken st w).state.tokenExpiresAt = w.now + ein * 1000 - 300 * 1000 ∧
    (∀ now : Int, initTokenExpiresAt "A" now = now + 3600 * 1000) ∧
    (∀ now : Int, initTokenExpiresAt "" now = 0) := by
  refine ⟨?_, ?_, ?_⟩
  · rw [refreshAccessToken_success st w tok ein rrest hr hc hs hro]
    ring
  · intro now
    simp [initTokenExpiresAt]
  · intro now
    simp [initTokenExpiresAt]

/-- Claim C8, witness: concrete run of the refresher conjunct. -/
theorem C8_witness :
    (refreshAccessToken ⟨⟨"A", "r", "c", "s"⟩, 50⟩
      ⟨9, [.success "U" 600], []⟩).state.tokenExpiresAt = 9 + 600 * 1000 - 300 * 1000 :=
  (C8_margin_amended ⟨⟨"A", "r", "c", "s"⟩, 50⟩
    ⟨9, [.success "U" 600], []⟩ "U" 600 []
    (by decide) (by decide) (by decide) rfl).1

/-- Claim C9, counterexample: the inline-image download retries after a 401
even though client id and client secret are not configured (two resource
fetches occur, both with the old token, because the refresh silently
no-ops), and when the 401-path refresh call fails with the full triple
configured, the refresh failure is surfaced instead of the original 401;
both refute the claim that the helper applies the same single-retry
discipline as the dispatcher. -/
theorem C9_counterexample :
    (downloadInlineImage ⟨⟨"A", "r", "", ""⟩, 1000⟩
      ⟨0, [], [.resp ⟨401, "x", ""⟩, .resp ⟨200, "imgbytes", "image/png"⟩]⟩).events
      = [.apiCall "A", .apiCall "A"] ∧
    (downloadInlineImage ⟨⟨"A", "r", "c", "s"⟩, 1000⟩
      ⟨0, [.httpErr 400 "badreq"], [.resp ⟨401, "x", ""⟩]⟩).result
      = .error (.refreshFailedHttp 400 "badreq") :=
  ⟨rfl, rfl⟩

/-- Claim C9 (amended): for an inline-image download with a fresh nonempty
token whose first fetch returns 401 and whose refreshToken is nonempty, a
retry fetch occurs even when client id or client secret is missing (the
refresh no-ops and the retry reuses the stored token); and when the triple
is fully configured but the 401-path refresh call fails, the refresh
failure is surfaced (not the original 401) and no retry fetch occurs. -/
theorem C9_image_retry_discipline
    (st : ServerState) (w : World) (r1 : FetchResponse) (frest : List FetchOutcome)
    (hfresh : w.now < st.tokenExpiresAt)
    (htok : st.config.accessToken ≠ "")
    (hf : w.fetchResults = .resp r1 :: frest)
    (h401 : r1.status = 401)
    (hr : st.config.refreshToken ≠ "") :
    ((st.config.clientId = "" ∨ st.config.clientSecret = "") →
      (downloadInlineImage st w).events
        = [.apiCall st.config.accessToken, .apiCall st.config.accessToken]) ∧
    (∀ (o : RefreshOutcome) (orest : List RefreshOutcome),
      st.config.clientId ≠ "" → st.config.clientSecret ≠ "" →
      w.refreshResults = o :: orest → o.isFailure = true →
      errIsRefreshFailure (downloadInlineImage st w).result = true ∧
      apiTokens (downloadInlineImage st w).events = [st.config.accessToken]) := by
  obtain ⟨n, rres, fres⟩ := w
  obtain ⟨stat, body, ct⟩ := r1
  simp only at hf h401 hfresh
  subst hf h401
  constructor
  · intro hmiss
    unfold downloadInlineImage
    rw [proactiveRefresh_fresh _ _ hfresh]
    rcases hmiss with h | h <;>
    · cases frest with
      | nil => simp [takeFetch, refreshAccessToken, FetchResponse.ok, htok, hr, h]
      | cons fo rest =>
        cases fo with
        | netErr m => simp [takeFetch, refreshAccessToken, FetchResponse.ok, htok, hr, h]
        | resp r2 =>
          simp [takeFetch, refreshAccessToken, FetchResponse.ok, htok, hr, h]
          split <;> rfl
  · intro o orest hc2 hs2 hro hfail
    simp only at hro
    subst hro
    unfold downloadInlineImage
    rw [proactiveRefresh_fresh _ _ hfresh]
    cases o with
    | netErr m =>
        simp [takeFetch, takeRefresh, refreshAccessToken, FetchResponse.ok, htok, hr,
          hc2, hs2, apiTokens, errIsRefreshFailure, ThrownError.isRefreshFailure]
    | httpErr a b =>
        simp [takeFetch, takeRefresh, refreshAccessToken, FetchResponse.ok, htok, hr,
          hc2, hs2, apiTokens, errIsRefreshFailure, ThrownError.isRefreshFailure]
    | success a b =>
        simp [RefreshOutcome.isFailure] at hfail

/-- Claim C9, witness: concrete run of the first conjunct of the amended
theorem. -/
theorem C9_witness :
    (downloadInlineImage ⟨⟨"A", "r", "", ""⟩, 1000⟩
      ⟨0, [], [.resp ⟨401, "y", ""⟩, .resp ⟨200, "img2", "image/jpeg"⟩]⟩).events
      = [.apiCall "A", .apiCall "A"] :=
  (C9_image_retry_discipline ⟨⟨"A", "r", "", ""⟩, 1000⟩
    ⟨0, [], [.resp ⟨401, "y", ""⟩, .resp ⟨200, "img2", "image/jpeg"⟩]⟩
    ⟨401, "y", ""⟩ [.resp ⟨200, "img2", "image/jpeg"⟩]
    (by decide) (by decide) rfl rfl (by decide)).1 (Or.inl rfl)

/-- Claim C10: for every parsed tasklists response and every nonempty
name_contains argument, the minimal-format output of listTasklists is
exactly the tasklists whose name contains the argument case-insensitively
(the client-side filter), each projected to exactly the two fields id and
name. -/
theorem C10_tasklists_filter (data : TasklistsData) (pat : String) (hpat : pat ≠ "") :
    listTasklistsShape data (some pat) true =
      .minimal (((data.tasklists.getD []).filter (nameContainsCI pat)).map minimalProj) := by
  unfold listTasklistsShape
  have htr : strTruthy (some pat) = true := by simp [strTruthy, hpat]
  rw [htr]
  simp only [if_true, Option.getD_some]
  congr 1
  congr 1
  apply List.filter_congr
  intro t _
  unfold nameContainsCI
  match hn : t.name with
  | none => simp [strTruthy]
  | some n =>
    by_cases hne : n = ""
    · subst hne
      have hp : (strToLower pat).data ≠ [] := strToLower_data_ne_nil pat hpat
      simp only [strTruthy, Option.getD_some]
      have hct : strIncludes (strToLower "") (strToLower pat) = false := by
        simp only [strIncludes, decide_eq_false_iff_not]
        intro hi
        exact hp (List.infix_nil.mp hi)
      simp [hct]
    · simp [strTruthy, hne]

/-- Claim C10, witness: concrete evaluation on a four-element response. -/
theorem C10_witness :
    listTasklistsShape
      ⟨some [⟨"1", some "Sprint Docs", [("owner", "amy")]⟩, ⟨"2", some "backlog", []⟩,
        ⟨"3", none, []⟩, ⟨"4", some "", []⟩], [("page", "1")]⟩
      (some "DOC") true = .minimal [⟨"1", some "Sprint Docs"⟩] :=
  Eq.trans
    (C10_tasklists_filter
      ⟨some [⟨"1", some "Sprint Docs", [("owner", "amy")]⟩, ⟨"2", some "backlog", []⟩,
        ⟨"3", none, []⟩, ⟨"4", some "", []⟩], [("page", "1")]⟩
      "DOC" (by decide))
    (by decide)
